import Mathlib

/-!
Formal model of the jokes HTTP service.

Shallow embedding of the TypeScript sources:
  - src/utils/prismaErrors.ts        (`handlePrismaError`, `ERROR_MESSAGES`)
  - src/middleware/validate.ts       (`validate`, `formatZodError`)
  - src/schemas/jokeSchemas.ts       (`idParamSchema`, `createJokeSchema`,
                                      `getJokesQuerySchema`)
  - src/controllers/jokesController.ts, both variants: the schema-validated
    controller (`getAll`/`getById`/`create`) and the minimal inline-checked
    controller (`getByIdInline`, `createMinimal`)
  - src/routes/jokesRoutes.ts        (composition of middleware + controller)

The Prisma storage collaborator is modelled over an explicit database
`List Joke`; each handler returns, besides the HTTP response, a trace of
which storage calls it made and with which arguments.
-/

/-- A JavaScript runtime value, to the extent the checks in this codebase
inspect one: `typeof` and truthiness. -/
inductive JsVal where
  | vUndef
  | vNull
  | vBool (b : Bool)
  | vNum (n : Int)
  | vStr (s : String)
deriving DecidableEq, Repr

/-- JavaScript truthiness of a `JsVal`. -/
def jsTruthy : JsVal → Bool
  | .vUndef => false
  | .vNull => false
  | .vBool b => b
  | .vNum n => n != 0
  | .vStr s => s != ""

/-- JavaScript `typeof`. -/
def jsTypeof : JsVal → String
  | .vUndef => "undefined"
  | .vNull => "object"
  | .vBool _ => "boolean"
  | .vNum _ => "number"
  | .vStr _ => "string"

/-- The string content of a `JsVal` known to be a string (used after a
`typeof v === "string"` guard has succeeded). -/
def jsStrVal : JsVal → String
  | .vStr s => s
  | _ => ""

/-- A string-or-undefined value as the Prisma client receives it for the
nullable `author` column. -/
def jsValToOptStr : JsVal → Option String
  | .vStr s => some s
  | _ => none

/-! ## Error Translator: src/utils/prismaErrors.ts -/

/-- The failure values `handlePrismaError` distinguishes:
`Prisma.PrismaClientKnownRequestError` (with its `code`, `message` and
`meta.target`), `Prisma.PrismaClientValidationError`,
`Prisma.PrismaClientInitializationError`, and everything else a JS `catch`
can deliver: generic `Error` objects and non-exception thrown values
(strings, numbers, `null`, `undefined`, booleans). -/
inductive PrismaFailure where
  | knownRequest (code : String) (message : String) (metaTarget : Option (List String))
  | validationFailure (message : String)
  | initializationFailure (message : String)
  | genericError (name : String) (message : String)
  | nonErrorValue (v : JsVal)
deriving DecidableEq, Repr

/-- The JSON body `handlePrismaError` produces (`PrismaErrorResponse` in the
source); a `none` field is absent from the serialized object. -/
structure PrismaErrorResponse where
  error : String
  code : Option String := none
  field : Option (List String) := none
  message : Option String := none
deriving DecidableEq, Repr

/-- An HTTP response of the error translator together with whether
`console.error` was called while producing it. -/
structure HandledError where
  status : Nat
  body : PrismaErrorResponse
  logged : Bool
deriving DecidableEq, Repr

/-- The `ERROR_MESSAGES` record from src/utils/prismaErrors.ts. -/
def ERROR_MESSAGES : String → Option (Nat × String)
  | "P2002" => some (409, "A record with this value already exists")
  | "P2025" => some (404, "Record not found")
  | "P2003" => some (400, "Related record not found")
  | "P2014" => some (400, "Required relation violation")
  | _ => none

/-- `handlePrismaError` from src/utils/prismaErrors.ts. -/
def handlePrismaError (e : PrismaFailure) : HandledError :=
  match e with
  | .knownRequest code message metaTarget =>
    match ERROR_MESSAGES code with
    | some (status, msg) =>
      { status := status
        body := { error := msg, code := some code
                  field := if code = "P2002" then metaTarget else none }
        logged := false }
    | none =>
      { status := 400
        body := { error := "Database request error", code := some code
                  message := some message }
        logged := false }
  | .validationFailure message =>
    { status := 400
      body := { error := "Invalid data provided", message := some message }
      logged := false }
  | .initializationFailure _ =>
    { status := 503, body := { error := "Database connection error" }, logged := true }
  | .genericError _ _ =>
    { status := 500, body := { error := "Internal server error" }, logged := true }
  | .nonErrorValue _ =>
    { status := 500, body := { error := "Internal server error" }, logged := true }

/-! ## Validation middleware: src/middleware/validate.ts -/

/-- One entry of a `ZodError`'s `issues` array: a path into the failing
structure and a message. -/
structure ZodIssue where
  path : List String
  message : String
deriving DecidableEq, Repr

/-- One `{field, message}` pair of the 400 response's `details` list. -/
structure FieldMessage where
  field : String
  message : String
deriving DecidableEq, Repr

/-- The result of `schema.safeParse(value)`. -/
inductive ParseResult (α : Type) where
  | success (data : α)
  | failure (error : List ZodIssue)
deriving DecidableEq, Repr

/-- `formatZodError` from src/middleware/validate.ts:
`issue.path.join(".") || "unknown"` (the empty joined path is falsy). -/
def formatZodError (issues : List ZodIssue) : List FieldMessage :=
  issues.map fun issue =>
    { field := if String.intercalate "." issue.path = "" then "unknown"
               else String.intercalate "." issue.path
      message := issue.message }

/-- The `ValidationSchemas` argument of `validate`: up to three schemas, for
params, query and body, each modelled by its `safeParse` function. -/
structure ValidationSchemas (P Q B P' Q' B' : Type) where
  params : Option (P → ParseResult P') := none
  query : Option (Q → ParseResult Q') := none
  body : Option (B → ParseResult B') := none

/-- An Express request as `validate` sees it: the three raw parts plus the
three `validated*` fields the middleware may attach. -/
structure MwRequest (P Q B P' Q' B' : Type) where
  params : P
  query : Q
  body : B
  validatedParams : Option P' := none
  validatedQuery : Option Q' := none
  validatedBody : Option B' := none
deriving DecidableEq, Repr

/-- What the middleware does after checking: call `next()` with the updated
request, or short-circuit with a JSON response. -/
inductive MwStep (P Q B P' Q' B' : Type) where
  | callNext (req : MwRequest P Q B P' Q' B')
  | respond (status : Nat) (error : String) (details : List FieldMessage)
            (req : MwRequest P Q B P' Q' B')
deriving DecidableEq, Repr

/-- The `validate` middleware from src/middleware/validate.ts: check params,
then query, then body, accumulating formatted errors and attaching each
successfully parsed part; respond 400 when any errors accumulated, call
`next()` otherwise. -/
def validate {P Q B P' Q' B' : Type} (s : ValidationSchemas P Q B P' Q' B')
    (req : MwRequest P Q B P' Q' B') : MwStep P Q B P' Q' B' :=
  let step1 : List FieldMessage × MwRequest P Q B P' Q' B' :=
    match s.params with
    | none => ([], req)
    | some check =>
      match check req.params with
      | .failure err => (formatZodError err, req)
      | .success d => ([], { req with validatedParams := some d })
  let step2 : List FieldMessage × MwRequest P Q B P' Q' B' :=
    match s.query with
    | none => step1
    | some check =>
      match check req.query with
      | .failure err => (step1.1 ++ formatZodError err, step1.2)
      | .success d => (step1.1, { step1.2 with validatedQuery := some d })
  let step3 : List FieldMessage × MwRequest P Q B P' Q' B' :=
    match s.body with
    | none => step2
    | some check =>
      match check req.body with
      | .failure err => (step2.1 ++ formatZodError err, step2.2)
      | .success d => (step2.1, { step2.2 with validatedBody := some d })
  if step3.1.length > 0 then .respond 400 "Validation failed" step3.1 step3.2
  else .callNext step3.2

/-- The errors one part of the request contributes: the formatted issues of
its schema when the schema is declared and fails, nothing otherwise. -/
def partErrors {R D : Type} (sch : Option (R → ParseResult D)) (raw : R) :
    List FieldMessage :=
  match sch with
  | none => []
  | some check =>
    match check raw with
    | .failure err => formatZodError err
    | .success _ => []

/-- The normalized value one part of the request gets: the parsed data when
its schema is declared and succeeds, nothing otherwise. -/
def partAttached {R D : Type} (sch : Option (R → ParseResult D)) (raw : R) :
    Option D :=
  match sch with
  | none => none
  | some check =>
    match check raw with
    | .failure _ => none
    | .success d => some d

/-! ## Schemas: src/schemas/jokeSchemas.ts -/

/-- The regex `/^\d+$/`: one or more ASCII digits and nothing else. -/
def isDigitString (s : String) : Bool :=
  !s.toList.isEmpty && s.toList.all Char.isDigit

/-- The numeric value `Number` gives a digit string. Values are kept exact;
float rounding above 2^53 is not modelled. -/
def digitsToNat (s : String) : Nat :=
  s.toList.foldl (fun a c => a * 10 + (c.toNat - 48)) 0

/-- The raw Express path parameters for `/jokes/:id`. -/
structure RawIdParams where
  id : String
deriving DecidableEq, Repr

/-- The parsed output of `idParamSchema`. -/
structure IdParam where
  id : Int
deriving DecidableEq, Repr

/-- `idParamSchema.safeParse` from src/schemas/jokeSchemas.ts:
`z.string().regex(/^\d+$/, "id must be a valid integer").transform(Number)`
on the `id` field. -/
def idParamSchemaParse (p : RawIdParams) : ParseResult IdParam :=
  if isDigitString p.id then .success { id := (digitsToNat p.id : Int) }
  else .failure [{ path := ["id"], message := "id must be a valid integer" }]

/-- A raw create-request body; absent fields are `vUndef`. -/
structure RawCreateBody where
  text : JsVal := .vUndef
  author : JsVal := .vUndef
deriving DecidableEq, Repr

/-- The parsed output of `createJokeSchema`. -/
structure CreateJokeInput where
  text : String
  author : Option String := none
deriving DecidableEq, Repr

/-- Zod's name for a value's type in its error messages. -/
def zodTypeName : JsVal → String
  | .vUndef => "undefined"
  | .vNull => "null"
  | .vBool _ => "boolean"
  | .vNum _ => "number"
  | .vStr _ => "string"

/-- Issues `createJokeSchema` raises for `text`:
`z.string({ message: "text is required" }).min(1, "text cannot be empty")`. -/
def createTextIssues : JsVal → List ZodIssue
  | .vStr s =>
    if s.length < 1 then [{ path := ["text"], message := "text cannot be empty" }]
    else []
  | _ => [{ path := ["text"], message := "text is required" }]

/-- Issues `createJokeSchema` raises for `author`: `z.string().optional()`. -/
def createAuthorIssues : JsVal → List ZodIssue
  | .vUndef => []
  | .vStr _ => []
  | v => [{ path := ["author"]
            message := "Expected string, received " ++ zodTypeName v }]

/-- `createJokeSchema.safeParse` from src/schemas/jokeSchemas.ts. -/
def createJokeSchemaParse (b : RawCreateBody) : ParseResult CreateJokeInput :=
  let issues := createTextIssues b.text ++ createAuthorIssues b.author
  if issues.isEmpty then
    .success { text := jsStrVal b.text, author := jsValToOptStr b.author }
  else .failure issues

/-- The `sortBy` enum `{id, createdAt, text}`. -/
inductive SortField where
  | id
  | createdAt
  | text
deriving DecidableEq, Repr

/-- The `sortOrder` enum `{asc, desc}`. -/
inductive SortDir where
  | asc
  | desc
deriving DecidableEq, Repr

/-- The raw query string values for `GET /jokes`; absent keys are `none`. -/
structure RawListQuery where
  page : Option String := none
  limit : Option String := none
  author : Option String := none
  search : Option String := none
  sortBy : Option String := none
  sortOrder : Option String := none
deriving DecidableEq, Repr

/-- The parsed, defaulted output of `getJokesQuerySchema`. -/
structure GetJokesQuery where
  page : Nat
  limit : Nat
  author : Option String := none
  search : Option String := none
  sortBy : SortField := .id
  sortOrder : SortDir := .desc
deriving DecidableEq, Repr

/-- Issues of the `page` field:
`z.string().regex(/^\d+$/).transform(Number).refine(n => n >= 1).optional()`. -/
def pageIssues : Option String → List ZodIssue
  | none => []
  | some s =>
    if !isDigitString s then
      [{ path := ["page"], message := "page must be a positive integer" }]
    else if 1 ≤ digitsToNat s then []
    else [{ path := ["page"], message := "page must be at least 1" }]

/-- Issues of the `limit` field: digit string, value within `[1,100]`. -/
def limitIssues : Option String → List ZodIssue
  | none => []
  | some s =>
    if !isDigitString s then
      [{ path := ["limit"], message := "limit must be a positive integer" }]
    else if 1 ≤ digitsToNat s && digitsToNat s ≤ 100 then []
    else [{ path := ["limit"], message := "limit must be between 1 and 100" }]

/-- `z.enum(["id", "createdAt", "text"])`. -/
def parseSortField : String → Option SortField
  | "id" => some .id
  | "createdAt" => some .createdAt
  | "text" => some .text
  | _ => none

/-- `z.enum(["asc", "desc"])`. -/
def parseSortDir : String → Option SortDir
  | "asc" => some .asc
  | "desc" => some .desc
  | _ => none

/-- Issues of the `sortBy` field. -/
def sortByIssues : Option String → List ZodIssue
  | none => []
  | some s =>
    match parseSortField s with
    | some _ => []
    | none => [{ path := ["sortBy"]
                 message := "Invalid enum value. Expected id | createdAt | text" }]

/-- Issues of the `sortOrder` field. -/
def sortOrderIssues : Option String → List ZodIssue
  | none => []
  | some s =>
    match parseSortDir s with
    | some _ => []
    | none => [{ path := ["sortOrder"]
                 message := "Invalid enum value. Expected asc | desc" }]

/-- `getJokesQuerySchema.safeParse` from src/schemas/jokeSchemas.ts: validate
each field (issues collected across all fields, in declaration order), then
apply the `.transform` supplying the defaults `page 1`, `limit 10`,
`sortBy "id"`, `sortOrder "desc"`. -/
def getJokesQuerySchemaParse (q : RawListQuery) : ParseResult GetJokesQuery :=
  let issues := pageIssues q.page ++ limitIssues q.limit ++
    sortByIssues q.sortBy ++ sortOrderIssues q.sortOrder
  if issues.isEmpty then
    .success
      { page := match q.page with | some s => digitsToNat s | none => 1
        limit := match q.limit with | some s => digitsToNat s | none => 10
        author := q.author
        search := q.search
        sortBy := (q.sortBy.bind parseSortField).getD .id
        sortOrder := (q.sortOrder.bind parseSortDir).getD .desc }
  else .failure issues

/-! ## The Joke record and the storage collaborator -/

/-- One persisted Joke record. -/
structure Joke where
  id : Int
  text : String
  author : Option String := none
  createdAt : Nat := 0
deriving DecidableEq, Repr

/-- Substring containment on character lists. -/
def listContains (hay needle : List Char) : Bool :=
  match hay with
  | [] => needle.isEmpty
  | _ :: t => needle.isPrefixOf hay || listContains t needle

/-- The storage engine's `contains` predicate: substring containment
(engine-defined case handling is modelled as case-sensitive). -/
def strContains (hay needle : String) : Bool :=
  listContains hay.toList needle.toList

/-- The `where` object the list handler builds: an optional `contains`
constraint on `author` and an optional `contains` constraint on `text`. -/
structure JokeWhere where
  author : Option String := none
  text : Option String := none
deriving DecidableEq, Repr

/-- Whether a record satisfies a `where` filter: each declared `contains`
constraint must hold; a `contains` constraint on a `null` column fails. -/
def matchesWhere (w : JokeWhere) (j : Joke) : Bool :=
  (match w.author with
   | none => true
   | some a =>
     match j.author with
     | none => false
     | some s => strContains s a) &&
  (match w.text with
   | none => true
   | some t => strContains j.text t)

/-- Lexicographic comparison of strings by character code. -/
def charListLe : List Char → List Char → Bool
  | [], _ => true
  | _ :: _, [] => false
  | a :: as, b :: bs => if a = b then charListLe as bs else decide (a < b)

/-- String order used for `orderBy` on the `text` column. -/
def strLe (a b : String) : Bool :=
  charListLe a.toList b.toList

/-- Key comparison for `orderBy` on the chosen column. -/
def jokeKeyLe (f : SortField) (a b : Joke) : Bool :=
  match f with
  | .id => decide (a.id ≤ b.id)
  | .createdAt => decide (a.createdAt ≤ b.createdAt)
  | .text => strLe a.text b.text

/-- `orderBy: { [sortBy]: sortOrder }` as a Boolean order. -/
def jokeLe (f : SortField) (d : SortDir) (a b : Joke) : Bool :=
  match d with
  | .asc => jokeKeyLe f a b
  | .desc => jokeKeyLe f b a

/-- `prisma.joke.findMany({where, orderBy, skip, take})` over the database
`db`: filter, sort, then page. -/
def findMany (db : List Joke) (w : JokeWhere) (f : SortField) (d : SortDir)
    (skip takeN : Nat) : List Joke :=
  (((db.filter (matchesWhere w)).mergeSort (jokeLe f d)).drop skip).take takeN

/-- `prisma.joke.count({where})` over the database `db`. -/
def count (db : List Joke) (w : JokeWhere) : Nat :=
  (db.filter (matchesWhere w)).length

/-- `prisma.joke.findUnique({where: {id}})` over the database `db`. -/
def findUnique (db : List Joke) (i : Int) : Option Joke :=
  db.find? (fun j => j.id == i)

/-- The id the storage engine assigns to the next inserted record
(auto-incrementing primary key). -/
def nextId (db : List Joke) : Int :=
  db.foldl (fun m j => max m j.id) 0 + 1

/-- `prisma.joke.create({data: {text, author}})`: the inserted record (id
storage-assigned, createdAt set to the insertion time `now`) and the new
database state. -/
def insertJoke (db : List Joke) (text : String) (author : Option String)
    (now : Nat) : Joke × List Joke :=
  let j : Joke := { id := nextId db, text := text, author := author, createdAt := now }
  (j, db ++ [j])

/-! ## Resource handlers: src/controllers/jokesController.ts -/

/-- A handler's JSON response body. -/
inductive HandlerBody where
  | record (j : Joke)
  | records (js : List Joke)
  | errMsg (error : String)
  | validationFailed (details : List FieldMessage)
deriving DecidableEq, Repr

/-- `if (author) / if (search)`: JS truthiness of a string-or-undefined
query value (`undefined` and `""` are falsy). -/
def optStrTruthy : Option String → Bool
  | none => false
  | some s => s != ""

/-- The `where` object `getAll` builds from the normalized `author` and
`search` query values. -/
def buildWhere (author search : Option String) : JokeWhere :=
  let w : JokeWhere := {}
  let w := if optStrTruthy author then { w with author := author } else w
  if optStrTruthy search then { w with text := search } else w

/-- The arguments `getAll` passes to `prisma.joke.findMany`. -/
structure FindManyArgs where
  whereArg : JokeWhere
  sortBy : SortField
  sortOrder : SortDir
  skip : Nat
  take : Nat
deriving DecidableEq, Repr

/-- The `pagination` object of the list response. -/
structure Pagination where
  page : Nat
  limit : Nat
  total : Nat
  totalPages : Nat
deriving DecidableEq, Repr

/-- The outcome of the list handler: the two storage calls it made (the
`findMany` arguments and the `count` filter) and the JSON response. -/
structure GetAllResult where
  findManyArgs : FindManyArgs
  countWhere : JokeWhere
  data : List Joke
  pagination : Pagination
deriving DecidableEq, Repr

/-- `Math.ceil(a / b)` for natural `a` and positive natural `b`: exact
ceiling division (the operands are far below the float-exactness bound). -/
def jsCeilDiv (a b : Nat) : Nat :=
  a / b + (if a % b = 0 then 0 else 1)

/-- The validated `getAll` handler (src/controllers/jokesController.ts,
first variant): compute `skip = (page-1)*limit`, build the `where` filter
from `author`/`search` truthiness, fetch one page ordered by
`sortBy`/`sortOrder` and the total count with the same filter, and respond
with `{data, pagination}` where `totalPages = Math.ceil(total/limit)`. -/
def getAll (q : GetJokesQuery) (db : List Joke) : GetAllResult :=
  let skip := (q.page - 1) * q.limit
  let w := buildWhere q.author q.search
  let jokes := findMany db w q.sortBy q.sortOrder skip q.limit
  let total := count db w
  { findManyArgs := { whereArg := w, sortBy := q.sortBy, sortOrder := q.sortOrder
                      skip := skip, take := q.limit }
    countWhere := w
    data := jokes
    pagination := { page := q.page, limit := q.limit, total := total
                    totalPages := jsCeilDiv total q.limit } }

/-- The outcome of a get-by-id pipeline: whether `prisma.joke.findUnique`
was called, plus the HTTP response. -/
structure GetByIdResult where
  findUniqueCalled : Bool
  status : Nat
  body : HandlerBody
deriving DecidableEq, Repr

/-- The core of `getById` (both variants) for an already-numeric id:
`findUnique`, then 404 `{"error": "Joke not found"}` or 200 with the
record. -/
def getById (i : Int) (db : List Joke) : GetByIdResult :=
  match findUnique db i with
  | none => { findUniqueCalled := true, status := 404, body := .errMsg "Joke not found" }
  | some j => { findUniqueCalled := true, status := 200, body := .record j }

/-- The schema-validated `GET /jokes/:id` pipeline
(src/routes/jokesRoutes.ts): `validate({params: idParamSchema})` then
`controller.getById`; a schema failure short-circuits with the middleware's
400 body and the controller (hence `findUnique`) never runs. -/
def getByIdSchemaVariant (rawId : String) (db : List Joke) : GetByIdResult :=
  match idParamSchemaParse { id := rawId } with
  | .failure issues =>
    { findUniqueCalled := false, status := 400
      body := .validationFailed (formatZodError issues) }
  | .success p => getById p.id db

/-! ## JavaScript `Number(string)` for the inline variant -/

/-- The value of JavaScript `Number(string)`. A finite result is kept
exactly as `mantissa * 10 ^ scale`; float rounding is not modelled. -/
inductive JsNum where
  | nan
  | infinite (neg : Bool)
  | finite (mantissa : Int) (scale : Int)
deriving DecidableEq, Repr

/-- Powers of ten as integers. -/
def pow10 : Nat → Int
  | 0 => 1
  | n + 1 => 10 * pow10 n

/-- The value of a hexadecimal digit, when the character is one. -/
def hexDigitVal (c : Char) : Option Nat :=
  if c.isDigit then some (c.toNat - 48)
  else if 'a' ≤ c && c ≤ 'f' then some (c.toNat - 87)
  else if 'A' ≤ c && c ≤ 'F' then some (c.toNat - 55)
  else none

/-- Whether a character is a digit of the given radix (2, 8 or 16). -/
def isRadixDigit (radix : Nat) (c : Char) : Bool :=
  match hexDigitVal c with
  | some v => v < radix
  | none => false

/-- The value of a digit list in the given radix. -/
def digitsValRadix (radix : Nat) (ds : List Char) : Nat :=
  ds.foldl (fun a c => a * radix + ((hexDigitVal c).getD 0)) 0

/-- The value of a decimal digit list. -/
def digitsVal (ds : List Char) : Nat :=
  digitsValRadix 10 ds

/-- Parse the optional exponent part (`e`/`E`, optional sign, digits) that
may follow a decimal mantissa; the whole remainder must be consumed. -/
def parseExpTail (mantissa scale : Int) : List Char → Option JsNum
  | [] => some (.finite mantissa scale)
  | c :: r =>
    if c = 'e' || c = 'E' then
      let signAndRest : Int × List Char :=
        match r with
        | '+' :: t => (1, t)
        | '-' :: t => (-1, t)
        | t => (1, t)
      let ds := signAndRest.2.takeWhile Char.isDigit
      let rest := signAndRest.2.dropWhile Char.isDigit
      if ds.isEmpty || !rest.isEmpty then none
      else some (.finite mantissa (scale + signAndRest.1 * (digitsVal ds : Int)))
    else none

/-- Parse an unsigned decimal literal
(`digits [. digits] [exp]` or `. digits [exp]`). -/
def parseUnsignedDec (cs : List Char) : Option JsNum :=
  let intDs := cs.takeWhile Char.isDigit
  let r1 := cs.dropWhile Char.isDigit
  match r1 with
  | '.' :: r2 =>
    let fracDs := r2.takeWhile Char.isDigit
    let r3 := r2.dropWhile Char.isDigit
    if intDs.isEmpty && fracDs.isEmpty then none
    else parseExpTail (digitsVal (intDs ++ fracDs) : Int) (-(fracDs.length : Int)) r3
  | _ =>
    if intDs.isEmpty then none
    else parseExpTail (digitsVal intDs : Int) 0 r1

/-- Parse a non-decimal integer literal body (after `0x`, `0o` or `0b`). -/
def parseRadix (radix : Nat) (cs : List Char) : Option JsNum :=
  if cs.isEmpty || !(cs.all (isRadixDigit radix)) then none
  else some (.finite (digitsValRadix radix cs : Int) 0)

/-- Parse an unsigned numeric literal: `0x`/`0o`/`0b` forms or a decimal. -/
def parseUnsignedNumeric (cs : List Char) : Option JsNum :=
  match cs with
  | '0' :: c :: rest =>
    if c = 'x' || c = 'X' then parseRadix 16 rest
    else if c = 'o' || c = 'O' then parseRadix 8 rest
    else if c = 'b' || c = 'B' then parseRadix 2 rest
    else parseUnsignedDec cs
  | _ => parseUnsignedDec cs

/-- Parse what follows an explicit sign: `Infinity` or an unsigned decimal
(the non-decimal `0x`/`0o`/`0b` forms admit no sign). -/
def parseSignedTail (neg : Bool) (cs : List Char) : Option JsNum :=
  if cs = "Infinity".toList then some (.infinite neg)
  else
    match parseUnsignedDec cs with
    | some (.finite m s) => some (.finite (if neg then -m else m) s)
    | _ => none

/-- Parse a `StrNumericLiteral`. -/
def parseStrNumericLiteral (cs : List Char) : Option JsNum :=
  match cs with
  | '+' :: r => parseSignedTail false r
  | '-' :: r => parseSignedTail true r
  | _ =>
    if cs = "Infinity".toList then some (.infinite false)
    else parseUnsignedNumeric cs

/-- JavaScript string whitespace (the characters `Number` trims). -/
def isJsWhiteSpace (c : Char) : Bool :=
  c = ' ' || c = '\t' || c = '\n' || c = '\r' ||
  c.toNat = 11 || c.toNat = 12 || c.toNat = 160 ||
  c.toNat = 0xfeff || c.toNat = 0x2028 || c.toNat = 0x2029

/-- Trim JS whitespace from both ends. -/
def jsTrim (cs : List Char) : List Char :=
  ((cs.dropWhile isJsWhiteSpace).reverse.dropWhile isJsWhiteSpace).reverse

/-- JavaScript `Number(string)`: trim, empty means `0`, otherwise parse the
numeric literal grammar; anything unparsable is `NaN`. -/
def jsToNumber (s : String) : JsNum :=
  let cs := jsTrim s.toList
  if cs.isEmpty then .finite 0 0
  else
    match parseStrNumericLiteral cs with
    | some n => n
    | none => .nan

/-- JavaScript `Number.isInteger`: finite and of integral value. -/
def jsIsInteger : JsNum → Bool
  | .finite m s => if 0 ≤ s then true else m % pow10 (-s).toNat == 0
  | _ => false

/-- The integer value of a `JsNum` known to be an integer. -/
def jsNumToInt : JsNum → Int
  | .finite m s => if 0 ≤ s then m * pow10 s.toNat else m / pow10 (-s).toNat
  | _ => 0

/-- The inline-checked `getById` (src/controllers/jokesController.ts, second
variant): `const id = Number(req.params.id)`, reject with 400
`{"error": "id must be an integer"}` unless `Number.isInteger(id)`, and only
then query storage. -/
def getByIdInline (rawId : String) (db : List Joke) : GetByIdResult :=
  let idNum := jsToNumber rawId
  if !jsIsInteger idNum then
    { findUniqueCalled := false, status := 400, body := .errMsg "id must be an integer" }
  else getById (jsNumToInt idNum) db

/-- The outcome of a create pipeline: whether `prisma.joke.create` was
called, the database afterwards, and the HTTP response. -/
structure CreateResult where
  createCalled : Bool
  db : List Joke
  status : Nat
  body : HandlerBody
deriving DecidableEq, Repr

/-- The minimal-variant `create` (src/controllers/jokesController.ts, second
variant): `if (!text || typeof text !== "string")` respond 400
`{"error": "Missing required field: text"}` with no storage call; otherwise
insert one record and respond 201 with it. -/
def createMinimal (body : RawCreateBody) (db : List Joke) (now : Nat) : CreateResult :=
  if !jsTruthy body.text || jsTypeof body.text != "string" then
    { createCalled := false, db := db, status := 400
      body := .errMsg "Missing required field: text" }
  else
    let p := insertJoke db (jsStrVal body.text) (jsValToOptStr body.author) now
    { createCalled := true, db := p.2, status := 201, body := .record p.1 }

/-- The schema-validated `create` handler (first variant): the body has
already passed `createJokeSchema`; insert one record and respond 201. -/
def createValidated (input : CreateJokeInput) (db : List Joke) (now : Nat) : CreateResult :=
  let p := insertJoke db input.text input.author now
  { createCalled := true, db := p.2, status := 201, body := .record p.1 }

/-- Whether a `JsVal` is a non-empty string; its negation ("absent, not a
string, or the empty string") is exactly the condition under which the
create handlers reject the `text` field. -/
def JsVal.isNonEmptyString : JsVal → Bool
  | .vStr s => s != ""
  | _ => false

/-- The integer pattern as the specification words it: an optional leading
`-` followed by one or more digits, nothing else. Stated from the spec's
words for comparison with the pattern the code actually uses (`/^\d+$/`,
and `Number.isInteger` in the inline variant). -/
def specSignedIntPattern (s : String) : Bool :=
  let body :=
    match s.toList with
    | '-' :: t => t
    | t => t
  !body.isEmpty && body.all Char.isDigit

/-! ## Validity predicates and demo values used in statements -/

/-- The `page` values `getJokesQuerySchema` accepts: absent, or a digit
string of value at least 1. -/
def pageOk : Option String → Bool
  | none => true
  | some s => isDigitString s && decide (1 ≤ digitsToNat s)

/-- The `limit` values `getJokesQuerySchema` accepts: absent, or a digit
string of value within `[1,100]`. -/
def limitOk : Option String → Bool
  | none => true
  | some s => isDigitString s && decide (1 ≤ digitsToNat s) && decide (digitsToNat s ≤ 100)

/-- The `sortBy` values accepted: absent or a member of the enum. -/
def sortByOk : Option String → Bool
  | none => true
  | some s => (parseSortField s).isSome

/-- The `sortOrder` values accepted: absent or a member of the enum. -/
def sortOrderOk : Option String → Bool
  | none => true
  | some s => (parseSortDir s).isSome

/-- A concrete params schema (a Zod-style checker) used to exercise the
middleware: accepts exactly the string "7". -/
def demoParamsSchema : String → ParseResult Nat := fun s =>
  if s = "7" then .success 7
  else .failure [{ path := ["id"], message := "id must be a valid integer" }]

/-- A concrete schema set: a failing params schema, a passing query schema,
no body schema. -/
def demoSchemas : ValidationSchemas String String String Nat Nat Nat :=
  { params := some demoParamsSchema
    query := some fun _ => .success 1
    body := none }

/-- A concrete normalized list query. -/
def demoListQuery : GetJokesQuery :=
  { page := 2, limit := 3 }

/-- A concrete database of four records. -/
def demoDb : List Joke :=
  [{ id := 1, text := "a" }, { id := 2, text := "b" },
   { id := 3, text := "c" }, { id := 4, text := "d" }]

/-- A normalized list query whose author parameter is present but empty. -/
def emptyAuthorQuery : GetJokesQuery :=
  { page := 1, limit := 10, author := some "" }

/-- A concrete record. -/
def demoJoke : Joke :=
  { id := 5, text := "why", createdAt := 1 }

/-- A concrete raw list query string set. -/
def demoRawQuery : RawListQuery :=
  { page := some "2", limit := some "50", author := some "Jo", sortBy := some "text" }

/-- The normalized value `getJokesQuerySchema` produces for
`demoRawQuery`. -/
def demoParsedQuery : GetJokesQuery :=
  { page := 2, limit := 50, author := some "Jo", sortBy := .text }

/-! ## Theorems -/

/-- C1: `handlePrismaError` is total over every failure value (modelled by
`PrismaFailure`: known request errors, validation errors, initialization
errors, generic exceptions and non-exception thrown values such as strings
and `null`) and deterministic (it is a function). Known request errors map
P2002 to 409 with the violating columns echoed in `field`, P2025 to 404,
P2003 and P2014 to 400, and any other known code to a generic 400
"Database request error" body; validation errors map to 400 "Invalid data
provided"; initialization failures map to 503 "Database connection error";
everything else maps to 500 "Internal server error". `console.error`
logging happens exactly in the 503 and 500 cases, never in the 4xx
cases. -/
theorem handlePrismaError_total_mapping :
    (∀ m t, handlePrismaError (.knownRequest "P2002" m t) =
      { status := 409
        body := { error := "A record with this value already exists"
                  code := some "P2002", field := t }
        logged := false }) ∧
    (∀ m t, handlePrismaError (.knownRequest "P2025" m t) =
      { status := 404
        body := { error := "Record not found", code := some "P2025" }
        logged := false }) ∧
    (∀ m t, handlePrismaError (.knownRequest "P2003" m t) =
      { status := 400
        body := { error := "Related record not found", code := some "P2003" }
        logged := false }) ∧
    (∀ m t, handlePrismaError (.knownRequest "P2014" m t) =
      { status := 400
        body := { error := "Required relation violation", code := some "P2014" }
        logged := false }) ∧
    (∀ c m t, ERROR_MESSAGES c = none →
      handlePrismaError (.knownRequest c m t) =
      { status := 400
        body := { error := "Database request error", code := some c
                  message := some m }
        logged := false }) ∧
    (∀ m, handlePrismaError (.validationFailure m) =
      { status := 400
        body := { error := "Invalid data provided", message := some m }
        logged := false }) ∧
    (∀ m, handlePrismaError (.initializationFailure m) =
      { status := 503, body := { error := "Database connection error" }
        logged := true }) ∧
    (∀ n m, handlePrismaError (.genericError n m) =
      { status := 500, body := { error := "Internal server error" }, logged := true }) ∧
    (∀ v, handlePrismaError (.nonErrorValue v) =
      { status := 500, body := { error := "Internal server error" }, logged := true }) ∧
    (∀ e, (handlePrismaError e).logged = true ↔
      ((handlePrismaError e).status = 503 ∨ (handlePrismaError e).status = 500)) := by
  refine ⟨fun m t => rfl, fun m t => rfl, fun m t => rfl, fun m t => rfl,
    ?_, fun m => rfl, fun m => rfl, fun n m => rfl, fun v => rfl, ?_⟩
  · intro c m t h
    simp [handlePrismaError, h]
  · intro e
    have hcodes : ∀ c r, ERROR_MESSAGES c = some r →
        r.1 = 409 ∨ r.1 = 404 ∨ r.1 = 400 := by
      intro c r h
      unfold ERROR_MESSAGES at h
      split at h <;> cases h <;> decide
    cases e with
    | knownRequest c m t =>
      cases h : ERROR_MESSAGES c with
      | none => simp [handlePrismaError, h]
      | some r =>
        rcases hcodes c r h with h1 | h1 | h1 <;>
          simp [handlePrismaError, h, h1]
    | validationFailure m => simp [handlePrismaError]
    | initializationFailure m => simp [handlePrismaError]
    | genericError n m => simp [handlePrismaError]
    | nonErrorValue v => simp [handlePrismaError]

/-- Witness for C1: a known request error with an unrecognized code takes
the generic 400 row. -/
theorem handlePrismaError_total_mapping_witness :
    ERROR_MESSAGES "P9999" = none ∧
    handlePrismaError (.knownRequest "P9999" "boom" none) =
      { status := 400
        body := { error := "Database request error", code := some "P9999"
                  message := some "boom" }
        logged := false } :=
  ⟨by decide,
   handlePrismaError_total_mapping.2.2.2.2.1 "P9999" "boom" none (by decide)⟩

/-- C2: for any combination of params/query/body schemas, if at least one
declared part fails, `validate` responds 400 with body
`{"error": "Validation failed", "details": [...]}` where `details` is the
concatenation of the formatted violations of every failing part (one
`{field, message}` pair per violation, `field` the dotted path or
`"unknown"` when the joined path is empty); the downstream handler is not
invoked (the outcome is `respond`, not `callNext`); normalized values of
failing parts are not attached while normalized values of passing parts
are attached. When no part fails, `next()` is called with all declared
parts attached. -/
theorem validate_spec {P Q B P' Q' B' : Type}
    (s : ValidationSchemas P Q B P' Q' B') (rp : P) (rq : Q) (rb : B) :
    (partErrors s.params rp ++ partErrors s.query rq ++ partErrors s.body rb ≠ [] →
      validate s { params := rp, query := rq, body := rb } =
        .respond 400 "Validation failed"
          (partErrors s.params rp ++ partErrors s.query rq ++ partErrors s.body rb)
          { params := rp, query := rq, body := rb
            validatedParams := partAttached s.params rp
            validatedQuery := partAttached s.query rq
            validatedBody := partAttached s.body rb }) ∧
    (partErrors s.params rp ++ partErrors s.query rq ++ partErrors s.body rb = [] →
      validate s { params := rp, query := rq, body := rb } =
        .callNext
          { params := rp, query := rq, body := rb
            validatedParams := partAttached s.params rp
            validatedQuery := partAttached s.query rq
            validatedBody := partAttached s.body rb }) ∧
    (∀ issues : List ZodIssue, (formatZodError issues).length = issues.length) := by
  have key :
      validate s { params := rp, query := rq, body := rb } =
        (if (partErrors s.params rp ++ partErrors s.query rq ++
              partErrors s.body rb).length > 0 then
          MwStep.respond 400 "Validation failed"
            (partErrors s.params rp ++ partErrors s.query rq ++ partErrors s.body rb)
            { params := rp, query := rq, body := rb
              validatedParams := partAttached s.params rp
              validatedQuery := partAttached s.query rq
              validatedBody := partAttached s.body rb }
        else
          MwStep.callNext
            { params := rp, query := rq, body := rb
              validatedParams := partAttached s.params rp
              validatedQuery := partAttached s.query rq
              validatedBody := partAttached s.body rb }) := by
    rcases s with ⟨sp, sq, sb⟩
    cases sp with
    | none =>
      cases sq with
      | none =>
        cases sb with
        | none => simp [validate, partErrors, partAttached]
        | some cb =>
          cases hb : cb rb <;>
            simp [validate, partErrors, partAttached, hb]
      | some cq =>
        cases hq : cq rq <;> cases sb with
        | none => simp [validate, partErrors, partAttached, hq]
        | some cb =>
          cases hb : cb rb <;>
            simp [validate, partErrors, partAttached, hq, hb]
    | some cp =>
      cases hp : cp rp <;> cases sq with
      | none =>
        cases sb with
        | none => simp [validate, partErrors, partAttached, hp]
        | some cb =>
          cases hb : cb rb <;>
            simp [validate, partErrors, partAttached, hp, hb]
      | some cq =>
        cases hq : cq rq <;> cases sb with
        | none => simp [validate, partErrors, partAttached, hp, hq]
        | some cb =>
          cases hb : cb rb <;>
            simp [validate, partErrors, partAttached, hp, hq, hb]
  refine ⟨?_, ?_, ?_⟩
  · intro h
    rw [key, if_pos]
    exact List.length_pos.mpr h
  · intro h
    rw [key, h]
    simp
  · intro issues
    simp [formatZodError]

/-- Witness for C2: a failing params schema and a passing query schema give
a 400 aggregating the params violation, with the query's normalized value
attached and the params' not. -/
theorem validate_spec_witness :
    (partErrors demoSchemas.params "x" ++ partErrors demoSchemas.query "q" ++
      partErrors demoSchemas.body "b" ≠ []) ∧
    validate demoSchemas { params := "x", query := "q", body := "b" } =
      .respond 400 "Validation failed"
        (partErrors demoSchemas.params "x" ++ partErrors demoSchemas.query "q" ++
          partErrors demoSchemas.body "b")
        { params := "x", query := "q", body := "b"
          validatedParams := partAttached demoSchemas.params "x"
          validatedQuery := partAttached demoSchemas.query "q"
          validatedBody := partAttached demoSchemas.body "b" } :=
  ⟨by decide, (validate_spec demoSchemas "x" "q" "b").1 (by decide)⟩

/-- `Math.ceil(a / b)` computed by the handler equals the mathematical
ceiling of the exact rational quotient, for positive `b`. -/
theorem jsCeilDiv_eq_ceil (a b : ℕ) (hb : 0 < b) :
    (jsCeilDiv a b : ℤ) = ⌈(a : ℚ) / (b : ℚ)⌉ := by
  have hb' : (0 : ℚ) < (b : ℚ) := by exact_mod_cast hb
  have h2 := Nat.div_add_mod' a b
  have hmlt : a % b < b := Nat.mod_lt _ hb
  have fact1 : a ≤ jsCeilDiv a b * b := by
    by_cases h : a % b = 0
    · simp only [jsCeilDiv, h, if_pos, add_zero]
      linarith [h2]
    · simp only [jsCeilDiv, h, if_neg, ite_false]
      have h3 : (a / b + 1) * b = a / b * b + b := by ring
      rw [h3]
      linarith [h2, hmlt]
  have fact2 : jsCeilDiv a b * b < a + b := by
    by_cases h : a % b = 0
    · simp only [jsCeilDiv, h, if_pos, add_zero]
      linarith [h2, hb]
    · simp only [jsCeilDiv, h, if_neg, ite_false]
      have h3 : (a / b + 1) * b = a / b * b + b := by ring
      rw [h3]
      have h4 : 0 < a % b := Nat.pos_of_ne_zero h
      linarith [h2]
  rw [eq_comm, Int.ceil_eq_iff]
  constructor
  · rw [lt_div_iff₀ hb']
    have f2 : ((jsCeilDiv a b : ℚ)) * b < (a : ℚ) + b := by exact_mod_cast fact2
    push_cast
    linarith
  · rw [div_le_iff₀ hb']
    have f1 : (a : ℚ) ≤ ((jsCeilDiv a b : ℚ)) * b := by exact_mod_cast fact1
    push_cast
    linarith

/-- C3: for every validated list request (`page ≥ 1`, `limit ∈ [1,100]`),
the handler passes `skip = (page-1)*limit` and `take = limit` to the page
query, at most `limit` records are returned, and the response's
`totalPages` equals the ceiling of `total / limit` where `total` is the
count of records matching the filter; `limit ≥ 1` makes the division
well-defined. -/
theorem getAll_pagination_spec (q : GetJokesQuery) (db : List Joke)
    (hpage : 1 ≤ q.page) (hlo : 1 ≤ q.limit) (hhi : q.limit ≤ 100) :
    (getAll q db).findManyArgs.skip = (q.page - 1) * q.limit ∧
    (getAll q db).findManyArgs.take = q.limit ∧
    (getAll q db).data.length ≤ q.limit ∧
    (getAll q db).pagination.total = count db (buildWhere q.author q.search) ∧
    ((getAll q db).pagination.totalPages : ℤ) =
      ⌈((getAll q db).pagination.total : ℚ) / (q.limit : ℚ)⌉ := by
  refine ⟨rfl, rfl, ?_, rfl, ?_⟩
  · simp only [getAll, findMany]
    exact List.length_take_le _ _
  · exact jsCeilDiv_eq_ceil _ _ hlo

/-- Witness for C3 at `page = 2`, `limit = 3` over a four-record
database. -/
theorem getAll_pagination_spec_witness :
    (1 ≤ demoListQuery.page ∧ 1 ≤ demoListQuery.limit ∧ demoListQuery.limit ≤ 100) ∧
    ((getAll demoListQuery demoDb).findManyArgs.skip =
        (demoListQuery.page - 1) * demoListQuery.limit ∧
      (getAll demoListQuery demoDb).findManyArgs.take = demoListQuery.limit ∧
      (getAll demoListQuery demoDb).data.length ≤ demoListQuery.limit ∧
      (getAll demoListQuery demoDb).pagination.total =
        count demoDb (buildWhere demoListQuery.author demoListQuery.search) ∧
      ((getAll demoListQuery demoDb).pagination.totalPages : ℤ) =
        ⌈((getAll demoListQuery demoDb).pagination.total : ℚ) / (demoListQuery.limit : ℚ)⌉) :=
  ⟨⟨by decide, by decide, by decide⟩,
   getAll_pagination_spec demoListQuery demoDb (by decide) (by decide) (by decide)⟩

/-- C4 counterexample: with the author parameter present but equal to the
empty string, the built filter carries no author constraint at all, so a
constraint is not applied whenever the parameter is merely present. -/
theorem getAll_author_present_counterexample :
    emptyAuthorQuery.author.isSome = true ∧
    (getAll emptyAuthorQuery []).findManyArgs.whereArg.author = none := by
  constructor
  · decide
  · decide

/-- C4 amended: the filter applies a substring-containment constraint on
`author` exactly when the author parameter is present AND non-empty, one on
`text` exactly when the search parameter is present and non-empty, their
conjunction when both are, and no constraint when neither is; the count
query receives the same filter as the page query. -/
theorem getAll_filter_spec (q : GetJokesQuery) (db : List Joke) :
    (getAll q db).countWhere = (getAll q db).findManyArgs.whereArg ∧
    (getAll q db).findManyArgs.whereArg =
      { author := if optStrTruthy q.author then q.author else none
        text := if optStrTruthy q.search then q.search else none } ∧
    (∀ j, matchesWhere (getAll q db).findManyArgs.whereArg j =
      ((!optStrTruthy q.author ||
         (match j.author with
          | none => false
          | some s => strContains s (q.author.getD ""))) &&
       (!optStrTruthy q.search || strContains j.text (q.search.getD "")))) := by
  refine ⟨rfl, ?_, ?_⟩
  · show buildWhere q.author q.search = _
    unfold buildWhere
    by_cases h1 : optStrTruthy q.author <;> by_cases h2 : optStrTruthy q.search <;>
      simp [h1, h2]
  · intro j
    show matchesWhere (buildWhere q.author q.search) j = _
    rcases q.author with _ | a
    · rcases q.search with _ | t
      · cases hja : j.author <;> simp [buildWhere, matchesWhere, optStrTruthy, hja]
      · by_cases ht : t = "" <;>
          cases hja : j.author <;>
          simp [buildWhere, matchesWhere, optStrTruthy, ht, hja]
    · rcases q.search with _ | t
      · by_cases ha : a = "" <;>
          cases hja : j.author <;>
          simp [buildWhere, matchesWhere, optStrTruthy, ha, hja]
      · by_cases ha : a = "" <;> by_cases ht : t = ""
        · cases hja : j.author <;>
            simp [buildWhere, matchesWhere, optStrTruthy, ha, ht, hja]
        · have ht2 : (t != "") = true := by simp [ht]
          cases hja : j.author <;>
            simp [buildWhere, matchesWhere, optStrTruthy, ha, ht2, hja]
        · have ha2 : (a != "") = true := by simp [ha]
          cases hja : j.author <;>
            simp [buildWhere, matchesWhere, optStrTruthy, ha2, ht, hja]
        · have ha2 : (a != "") = true := by simp [ha]
          have ht2 : (t != "") = true := by simp [ht]
          cases hja : j.author <;>
            simp [buildWhere, matchesWhere, optStrTruthy, ha2, ht2, hja]

/-- C10: supplying `author` or `search` as the empty string produces exactly
the same storage calls and response as omitting the parameter entirely. -/
theorem getAll_empty_param_spec (q : GetJokesQuery) (db : List Joke) :
    getAll { q with author := some "" } db = getAll { q with author := none } db ∧
    getAll { q with search := some "" } db = getAll { q with search := none } db := by
  constructor <;> rfl

/-- C5 counterexample: `"-1"` matches the claimed pattern (optional leading
minus, then digits) but `idParamSchema` rejects it: the code's regex is
`/^\d+$/`, digits only. -/
theorem idParam_negative_counterexample :
    specSignedIntPattern "-1" = true ∧
    idParamSchemaParse { id := "-1" } =
      .failure [{ path := ["id"], message := "id must be a valid integer" }] := by
  constructor
  · decide
  · decide

/-- C5 amended: the accepted pattern is digits only (no sign): every
digit-only string is accepted and transformed to its numeric value, and
every other string — including well-formed negatives like `"-1"` — is
rejected. -/
theorem idParam_schema_spec (s : String) :
    (isDigitString s = true →
      idParamSchemaParse { id := s } = .success { id := (digitsToNat s : Int) }) ∧
    (isDigitString s = false →
      idParamSchemaParse { id := s } =
        .failure [{ path := ["id"], message := "id must be a valid integer" }]) := by
  constructor <;> intro h <;> simp [idParamSchemaParse, h]

/-- Witness for C5 (amended): `"42"` is accepted and transformed. -/
theorem idParam_schema_spec_witness :
    isDigitString "42" = true ∧
    idParamSchemaParse { id := "42" } = .success { id := (digitsToNat "42" : Int) } :=
  ⟨by decide, (idParam_schema_spec "42").1 (by decide)⟩

/-- C6 counterexample: `"1e2"` is not a syntactically valid integer
(optional sign, digits), yet the inline variant parses it with `Number` to
the integer value 100, calls `findUnique`, and does not respond 400. -/
theorem getById_exponent_counterexample :
    specSignedIntPattern "1e2" = false ∧
    (getByIdInline "1e2" []).findUniqueCalled = true ∧
    (getByIdInline "1e2" []).status = 404 := by
  refine ⟨by decide, by decide, by decide⟩

/-- C6 amended: ids rejected by each variant's own integer check — which
includes `"abc"` and `"1.5"` in both variants — get a 400 with no storage
lookup: in the schema variant the check is the digits-only pattern, while
in the inline variant the check is `Number.isInteger(Number(id))`, a check
on the parsed numeric value, so syntactically non-integer strings that
denote integer values (such as `"1e2"`) pass it and do reach storage. -/
theorem getById_invalid_id_spec (s : String) (db : List Joke) :
    (isDigitString s = false →
      (getByIdSchemaVariant s db).findUniqueCalled = false ∧
      (getByIdSchemaVariant s db).status = 400 ∧
      (getByIdSchemaVariant s db).body =
        .validationFailed [{ field := "id", message := "id must be a valid integer" }]) ∧
    (jsIsInteger (jsToNumber s) = false →
      (getByIdInline s db).findUniqueCalled = false ∧
      (getByIdInline s db).status = 400 ∧
      (getByIdInline s db).body = .errMsg "id must be an integer") := by
  constructor
  · intro h
    refine ⟨?_, ?_, ?_⟩ <;>
      simp [getByIdSchemaVariant, idParamSchemaParse, h, formatZodError] <;>
      decide
  · intro h
    refine ⟨?_, ?_, ?_⟩ <;> simp [getByIdInline, h]

/-- Witness for C6 (amended) at `"1.5"`: both variants reject it with 400
and no lookup. -/
theorem getById_invalid_id_spec_witness :
    (isDigitString "1.5" = false ∧ jsIsInteger (jsToNumber "1.5") = false) ∧
    ((getByIdSchemaVariant "1.5" []).findUniqueCalled = false ∧
      (getByIdSchemaVariant "1.5" []).status = 400 ∧
      (getByIdSchemaVariant "1.5" []).body =
        .validationFailed [{ field := "id", message := "id must be a valid integer" }]) ∧
    ((getByIdInline "1.5" []).findUniqueCalled = false ∧
      (getByIdInline "1.5" []).status = 400 ∧
      (getByIdInline "1.5" []).body = .errMsg "id must be an integer") :=
  ⟨⟨by decide, by decide⟩,
   (getById_invalid_id_spec "1.5" []).1 (by decide),
   (getById_invalid_id_spec "1.5" []).2 (by decide)⟩

/-- `findUnique` returns the record with the sought id when one is present
and ids are pairwise distinct. -/
theorem findUnique_eq_of_mem (db : List Joke) (i : Int) (j : Joke)
    (hmem : j ∈ db) (hid : j.id = i)
    (hpw : db.Pairwise (fun a b => a.id ≠ b.id)) :
    findUnique db i = some j := by
  induction db with
  | nil => cases hmem
  | cons h t ih =>
    rcases List.mem_cons.mp hmem with rfl | hmem2
    · unfold findUnique
      rw [List.find?_cons_of_pos]
      simp [hid]
    · have hne : h.id ≠ i := by
        intro he
        exact (List.pairwise_cons.mp hpw).1 j hmem2 (by rw [he, hid])
      unfold findUnique
      rw [List.find?_cons_of_neg]
      · exact ih hmem2 (List.pairwise_cons.mp hpw).2
      · simp [hne]

/-- C7: for a valid integer id, `getById` looks the record up by identifier
equality with `findUnique`; when no record has that id it responds 404 with
`{"error": "Joke not found"}`, and when one does (ids being unique) it
responds 200 with that record. -/
theorem getById_spec (i : Int) (db : List Joke) :
    ((∀ j ∈ db, j.id ≠ i) →
      getById i db =
        { findUniqueCalled := true, status := 404, body := .errMsg "Joke not found" }) ∧
    (∀ j ∈ db, j.id = i → db.Pairwise (fun a b => a.id ≠ b.id) →
      getById i db =
        { findUniqueCalled := true, status := 200, body := .record j }) := by
  constructor
  · intro h
    have hnone : findUnique db i = none := by
      apply List.find?_eq_none.mpr
      intro j hj
      simpa using h j hj
    simp [getById, hnone]
  · intro j hj hid hpw
    simp [getById, findUnique_eq_of_mem db i j hj hid hpw]

/-- Witness for C7: a present id gives 200 with the record, an absent id
gives the 404 body. -/
theorem getById_spec_witness :
    ((∀ j ∈ [demoJoke], j.id ≠ (7 : Int)) ∧
      getById 7 [demoJoke] =
        { findUniqueCalled := true, status := 404, body := .errMsg "Joke not found" }) ∧
    (demoJoke ∈ [demoJoke] ∧ demoJoke.id = (5 : Int) ∧
      getById 5 [demoJoke] =
        { findUniqueCalled := true, status := 200, body := .record demoJoke }) :=
  ⟨⟨by decide, (getById_spec 7 [demoJoke]).1 (by decide)⟩,
   ⟨by decide, by decide,
    (getById_spec 5 [demoJoke]).2 demoJoke (by decide) (by decide) (by decide)⟩⟩

/-- The minimal create handler's guard `!text || typeof text !== "string"`
fires exactly when `text` is not a non-empty string. -/
theorem createMinimal_reject_cond (v : JsVal) :
    (!jsTruthy v || jsTypeof v != "string") = ! v.isNonEmptyString := by
  cases v <;> simp [jsTruthy, jsTypeof, JsVal.isNonEmptyString] <;> decide

/-- C8: when `text` is absent, not a string, or the empty string, the
create operation responds 400 `{"error": "Missing required field: text"}`
with no storage call (and `createJokeSchema` likewise never passes such a
body); when `text` is a non-empty string it inserts exactly one new record
carrying the given `text` and `author` (absent author becoming the
storage's null) and responds 201 with the created record. -/
theorem create_spec (body : RawCreateBody) (db : List Joke) (now : Nat) :
    (body.text.isNonEmptyString = false →
      createMinimal body db now =
        { createCalled := false, db := db, status := 400
          body := .errMsg "Missing required field: text" } ∧
      (∀ r, createJokeSchemaParse body ≠ .success r)) ∧
    (∀ s, body.text = .vStr s → s ≠ "" →
      createMinimal body db now =
        { createCalled := true
          db := db ++ [{ id := nextId db, text := s
                         author := jsValToOptStr body.author, createdAt := now }]
          status := 201
          body := .record { id := nextId db, text := s
                            author := jsValToOptStr body.author, createdAt := now } }) := by
  constructor
  · intro h
    constructor
    · unfold createMinimal
      rw [createMinimal_reject_cond]
      simp [h]
    · intro r hr
      have htext : createTextIssues body.text ≠ [] := by
        cases hbt : body.text <;> simp_all [createTextIssues, JsVal.isNonEmptyString]
      by_cases hc : (createTextIssues body.text ++ createAuthorIssues body.author).isEmpty
      · have hnil := List.append_eq_nil.mp (by simpa using hc)
        exact htext hnil.1
      · simp [createJokeSchemaParse, hc] at hr
  · intro s hbt hne
    have hs2 : (s != "") = true := by simp [hne]
    simp [createMinimal, hbt, jsTruthy, jsTypeof, hs2, insertJoke, jsStrVal]

/-- Witness for C8: the empty text is rejected with nothing persisted, and
a non-empty text inserts exactly one record and returns 201. -/
theorem create_spec_witness :
    ((JsVal.vStr "").isNonEmptyString = false ∧
      createMinimal { text := .vStr "" } [] 9 =
        { createCalled := false, db := [], status := 400
          body := .errMsg "Missing required field: text" } ∧
      (∀ r, createJokeSchemaParse { text := .vStr "" } ≠ .success r)) ∧
    (createMinimal { text := .vStr "ha", author := .vStr "bob" } [] 9 =
      { createCalled := true
        db := [{ id := nextId [], text := "ha"
                 author := jsValToOptStr (JsVal.vStr "bob"), createdAt := 9 }]
        status := 201
        body := .record { id := nextId [], text := "ha"
                          author := jsValToOptStr (JsVal.vStr "bob"), createdAt := 9 } }) :=
  ⟨⟨by decide,
    (create_spec { text := .vStr "" } [] 9).1 (by decide)⟩,
   by
     have h := (create_spec { text := .vStr "ha", author := .vStr "bob" } [] 9).2
       "ha" rfl (by decide)
     simpa using h⟩

/-- C9: `getJokesQuerySchema` accepts a raw list query exactly when `page`
is absent or a digit string of value at least 1, `limit` is absent or a
digit string of value within `[1,100]`, and `sortBy`/`sortOrder` are absent
or members of their enums; on success it normalizes with defaults
`page = 1`, `limit = 10`, `sortBy = id`, `sortOrder = desc`, passes
`author` and `search` through unchanged, and the normalized `page` and
`limit` satisfy the claimed bounds. -/
theorem getJokesQuerySchema_spec (q : RawListQuery) :
    ((∃ r, getJokesQuerySchemaParse q = .success r) ↔
      (pageOk q.page && limitOk q.limit && sortByOk q.sortBy &&
        sortOrderOk q.sortOrder) = true) ∧
    (∀ r, getJokesQuerySchemaParse q = .success r →
      r.page = (match q.page with | some s => digitsToNat s | none => 1) ∧
      1 ≤ r.page ∧
      r.limit = (match q.limit with | some s => digitsToNat s | none => 10) ∧
      1 ≤ r.limit ∧ r.limit ≤ 100 ∧
      r.author = q.author ∧
      r.search = q.search ∧
      r.sortBy = (q.sortBy.bind parseSortField).getD .id ∧
      r.sortOrder = (q.sortOrder.bind parseSortDir).getD .desc) := by
  have hp : pageIssues q.page = [] ↔ pageOk q.page = true := by
    cases q.page with
    | none => simp [pageIssues, pageOk]
    | some s =>
      by_cases h1 : isDigitString s <;> by_cases h2 : 1 ≤ digitsToNat s <;>
        simp [pageIssues, pageOk, h1, h2]
  have hl : limitIssues q.limit = [] ↔ limitOk q.limit = true := by
    cases q.limit with
    | none => simp [limitIssues, limitOk]
    | some s =>
      by_cases h1 : isDigitString s <;> by_cases h2 : 1 ≤ digitsToNat s <;>
        by_cases h3 : digitsToNat s ≤ 100 <;>
        simp [limitIssues, limitOk, h1, h2, h3]
  have hsb : sortByIssues q.sortBy = [] ↔ sortByOk q.sortBy = true := by
    cases q.sortBy with
    | none => simp [sortByIssues, sortByOk]
    | some s => cases hps : parseSortField s <;> simp [sortByIssues, sortByOk, hps]
  have hso : sortOrderIssues q.sortOrder = [] ↔ sortOrderOk q.sortOrder = true := by
    cases q.sortOrder with
    | none => simp [sortOrderIssues, sortOrderOk]
    | some s => cases hps : parseSortDir s <;> simp [sortOrderIssues, sortOrderOk, hps]
  have hpage_bound : pageOk q.page = true →
      1 ≤ (match q.page with | some s => digitsToNat s | none => 1) := by
    cases q.page with
    | none => intro _; simp
    | some s =>
      intro h
      simp only [pageOk, Bool.and_eq_true, decide_eq_true_eq] at h
      exact h.2
  have hlimit_bound : limitOk q.limit = true →
      1 ≤ (match q.limit with | some s => digitsToNat s | none => 10) ∧
      (match q.limit with | some s => digitsToNat s | none => 10) ≤ 100 := by
    cases q.limit with
    | none => intro _; simp
    | some s =>
      intro h
      simp only [limitOk, Bool.and_eq_true, decide_eq_true_eq] at h
      exact ⟨h.1.2, h.2⟩
  constructor
  · constructor
    · rintro ⟨r, hr⟩
      by_cases hc : pageIssues q.page = [] ∧ limitIssues q.limit = [] ∧
          sortByIssues q.sortBy = [] ∧ sortOrderIssues q.sortOrder = []
      · simp [hp.mp hc.1, hl.mp hc.2.1, hsb.mp hc.2.2.1, hso.mp hc.2.2.2]
      · simp [getJokesQuerySchemaParse, hc] at hr
    · intro hok
      simp only [Bool.and_eq_true] at hok
      obtain ⟨⟨⟨hpg, hlm⟩, hsb2⟩, hso2⟩ := hok
      refine ⟨{ page := match q.page with | some s => digitsToNat s | none => 1
                limit := match q.limit with | some s => digitsToNat s | none => 10
                author := q.author
                search := q.search
                sortBy := (q.sortBy.bind parseSortField).getD .id
                sortOrder := (q.sortOrder.bind parseSortDir).getD .desc }, ?_⟩
      simp [getJokesQuerySchemaParse, hp.mpr hpg, hl.mpr hlm, hsb.mpr hsb2,
        hso.mpr hso2]
  · intro r hr
    by_cases hc : pageIssues q.page = [] ∧ limitIssues q.limit = [] ∧
        sortByIssues q.sortBy = [] ∧ sortOrderIssues q.sortOrder = []
    · simp only [getJokesQuerySchemaParse, hc.1, hc.2.1, hc.2.2.1, hc.2.2.2,
        List.append_nil, List.nil_append, List.isEmpty_nil, if_true,
        ParseResult.success.injEq, and_self, ite_true] at hr
      subst hr
      refine ⟨rfl, ?_, rfl, ?_, ?_, rfl, rfl, rfl, rfl⟩
      · exact hpage_bound (hp.mp hc.1)
      · exact (hlimit_bound (hl.mp hc.2.1)).1
      · exact (hlimit_bound (hl.mp hc.2.1)).2
    · simp [getJokesQuerySchemaParse, hc] at hr

/-- Witness for C9: a concrete raw query with explicit page, limit, author
and sortBy normalizes as claimed. -/
theorem getJokesQuerySchema_spec_witness :
    getJokesQuerySchemaParse demoRawQuery = .success demoParsedQuery ∧
    (demoParsedQuery.page =
        (match demoRawQuery.page with | some s => digitsToNat s | none => 1) ∧
      1 ≤ demoParsedQuery.page ∧
      demoParsedQuery.limit =
        (match demoRawQuery.limit with | some s => digitsToNat s | none => 10) ∧
      1 ≤ demoParsedQuery.limit ∧ demoParsedQuery.limit ≤ 100 ∧
      demoParsedQuery.author = demoRawQuery.author ∧
      demoParsedQuery.search = demoRawQuery.search ∧
      demoParsedQuery.sortBy = (demoRawQuery.sortBy.bind parseSortField).getD .id ∧
      demoParsedQuery.sortOrder = (demoRawQuery.sortOrder.bind parseSortDir).getD .desc) :=
  ⟨by decide,
   (getJokesQuerySchema_spec demoRawQuery).2 demoParsedQuery (by decide)⟩
